import Mathlib

/-!
# UserService: a shallow embedding

The service object of `backend/services/UserService.js` has three operations:
`findUsers` and `login` forward to the transport helper `doFetch`, and
`oauthLogin` assigns a URL built from two constants to `window.location`.

The browser is modelled by explicit state passing. A `World` holds the object
heap (so that the in-place merge of `login` and the identity of the payload are
visible), the navigation target, and two logs written by the test doubles: the
transport calls a recording transport has seen and the continuations that were
invoked. The transport `doFetch` is not part of the sources; every operation
takes it as a parameter.

JavaScript strings are modelled by `String`; the only string operation of the
sources is concatenation.
-/

namespace UserService

/-- Identity of a heap object. -/
abbrev Addr := Nat

/-- JavaScript values. Objects (mappings, arrays) are references into the heap;
a callable is a function value with its own identity. -/
inductive Value where
  | undefined : Value
  | null : Value
  | bool (b : Bool) : Value
  | num (n : Int) : Value
  | str (s : String) : Value
  | obj (a : Addr) : Value
  | fn (id : Nat) : Value
  deriving DecidableEq

/-- An object: its own enumerable properties, in insertion order. -/
abbrev Obj := List (String × Value)

/-- Property read `o[k]` on own properties; `none` when the key is absent. -/
def getProp : Obj → String → Option Value
  | [], _ => none
  | (k', v') :: rest, k => if k' = k then some v' else getProp rest k

/-- Property assignment `o[k] = v`: an existing key keeps its place and takes
the new value, a new key is added after the others. -/
def setProp : Obj → String → Value → Obj
  | [], k, v => [(k, v)]
  | (k', v') :: rest, k, v =>
      if k' = k then (k, v) :: rest else (k', v') :: setProp rest k v

/-- One call seen by a recording transport: the four arguments of `doFetch`. -/
structure FetchCall where
  path : String
  payload : Value
  onSuccess : Value
  onError : Value
  deriving DecidableEq

/-- The state of the page. -/
structure World where
  /-- The object stored at each identity. -/
  heap : Addr → Obj
  /-- The navigation target, `window.location`, once one has been assigned. -/
  location : Option String
  /-- The calls recorded by a recording transport, oldest first. -/
  fetches : List FetchCall
  /-- The continuations that were invoked, with their argument, oldest first. -/
  invocations : List (Value × Value)

/-- The transport dependency `doFetch(path, payload, onSuccess, onError)`. It is
defined outside the sources, so it is a parameter: any state transformer. -/
abbrev Transport := String → Value → Value → Value → World → World

/-- Line 1: `const OAUTH_SERVER = 'http://localhost:7777/oauth-server/'`. -/
def OAUTH_SERVER : String := "http://localhost:7777/oauth-server/"

/-- Line 2: `const CLIENT_ID = 'tasks_app'`. -/
def CLIENT_ID : String := "tasks_app"

/-- The heap with the object at `a` replaced by `o`. -/
def writeObj (h : Addr → Obj) (a : Addr) (o : Obj) : Addr → Obj :=
  fun b => if b = a then o else h b

/-- Modelled from the spec: one round of the merge of `$.extend`, for one
property of the options: `target[name] = copy`, overwriting an existing key.
The three guards are those of jQuery's shallow merge (a `__proto__` name, a
value that is the target itself and an undefined value are skipped); none of
them fires for the options `login` passes. -/
def extendStep (target : Addr) (o : Obj) (p : String × Value) : Obj :=
  if p.1 = "__proto__" ∨ p.2 = Value.obj target then o
  else if p.2 = Value.undefined then o
  else setProp o p.1 p.2

/-- Modelled from the spec: `$.extend(target, options)` is jQuery's and is not
part of the sources. In the spec's words it merges the options into the
caller's mapping in place, overwriting any existing key, and the result is the
caller's own object, not a copy. The object literal of the options never
escapes the call, so it is passed as a property list rather than allocated.
Returns the value of the call (the target reference) and the new heap. -/
def extend (target : Addr) (options : Obj) (h : Addr → Obj) : Value × (Addr → Obj) :=
  (Value.obj target, writeObj h target (options.foldl (extendStep target) (h target)))

/-- Lines 5-7:
`findUsers : (data, onSuccess, onError) => { doFetch('api/users', data, onSuccess, onError); }`. -/
def findUsers (doFetch : Transport) (data onSuccess onError : Value) (w : World) : World :=
  doFetch "api/users" data onSuccess onError w

/-- Lines 9-11:
`login : (data, onSuccess, onError) => { doFetch('api/login', $.extend(data, {method: 'post'}), onSuccess, onError); }`.
The argument `$.extend(...)` is evaluated before `doFetch` is entered. The
payload `data` is a reference to a mutable mapping. -/
def login (doFetch : Transport) (data : Addr) (onSuccess onError : Value) (w : World) : World :=
  let r := extend data [("method", Value.str "post")] w.heap
  doFetch "api/login" r.1 onSuccess onError { w with heap := r.2 }

/-- Lines 14-17 of `oauthLogin`, as a function of the two constants it reads:
the four successive values of the local `url`. -/
def oauthUrl (server clientId : String) : String :=
  let url := server ++ "oauth/authorize?"
  let url := url ++ "response_type=token"
  let url := url ++ ("&client_id=" ++ clientId)
  let url := url ++ "&redirect_uri=http://localhost:8888/tasks-service/dashboard/loginOAuth"
  url

/-- Lines 13-20: `oauthLogin` builds the URL from `OAUTH_SERVER` and `CLIENT_ID`
and assigns it to `window.location`. -/
def oauthLogin (w : World) : World :=
  { w with location := some (oauthUrl OAUTH_SERVER CLIENT_ID) }

/-! ## Test doubles and histories -/

/-- Calling a continuation `f(arg)`. The body of a continuation is the caller's
own code; the call is observed as an entry of the invocation log. -/
def invoke (f arg : Value) (w : World) : World :=
  { w with invocations := w.invocations ++ [(f, arg)] }

/-- The stub transport that records each call it receives and never invokes a
continuation. -/
def recordingTransport : Transport := fun path payload onSuccess onError w =>
  { w with fetches := w.fetches ++ [FetchCall.mk path payload onSuccess onError] }

/-- What a transport does with the continuations it was given. -/
inductive Outcome where
  | success (result : Value) : Outcome
  | failure (error : Value) : Outcome
  | pending : Outcome
  deriving DecidableEq

/-- The stub transport with a fixed outcome: it records the call, then invokes
`onSuccess` with the result, invokes `onError` with the error, or invokes
neither. -/
def outcomeTransport (o : Outcome) : Transport := fun path payload onSuccess onError w =>
  match o with
  | Outcome.success r => invoke onSuccess r (recordingTransport path payload onSuccess onError w)
  | Outcome.failure x => invoke onError x (recordingTransport path payload onSuccess onError w)
  | Outcome.pending => recordingTransport path payload onSuccess onError w

/-- A transport that leaves the object at `a` as it found it. -/
def PreservesObj (t : Transport) (a : Addr) : Prop :=
  ∀ path payload onSuccess onError w, (t path payload onSuccess onError w).heap a = w.heap a

/-- On the call `t(path, payload, onSuccess, onError)` made in state `w`, the
transport reports a failure with the error `err`: what it does with
continuations on this call is to invoke the error continuation it was given,
once, with `err`. The error may depend on the request and on the state. -/
def ReportsFailure (t : Transport) (path : String) (payload onSuccess onError : Value)
    (w : World) (err : Value) : Prop :=
  (t path payload onSuccess onError w).invocations = w.invocations ++ [(onError, err)]

/-- On the call `t(path, payload, onSuccess, onError)` made in state `w`, the
transport delivers the result `r`: what it does with continuations on this call
is to invoke the success continuation it was given, once, with `r`. -/
def DeliversResult (t : Transport) (path : String) (payload onSuccess onError : Value)
    (w : World) (r : Value) : Prop :=
  (t path payload onSuccess onError w).invocations = w.invocations ++ [(onSuccess, r)]

/-- A transport whose outcome depends on the request: it records the call, then
refuses `api/login` with the error `"401"` and answers any other path with the
payload it was sent. -/
def routedTransport : Transport := fun path payload onSuccess onError w =>
  if path = "api/login" then
    invoke onError (Value.str "401") (recordingTransport path payload onSuccess onError w)
  else
    invoke onSuccess payload (recordingTransport path payload onSuccess onError w)

/-- One call of the service by the application. -/
inductive ServiceCall where
  | findUsers (data onSuccess onError : Value) : ServiceCall
  | login (data : Addr) (onSuccess onError : Value) : ServiceCall
  deriving DecidableEq

/-- Running one call of the service. -/
def runCall (t : Transport) (w : World) : ServiceCall → World
  | ServiceCall.findUsers d s e => findUsers t d s e w
  | ServiceCall.login d s e => login t d s e w

/-- Running a history of calls, oldest first. -/
def runHistory (t : Transport) (h : List ServiceCall) (w : World) : World :=
  h.foldl (runCall t) w

/-- The state in which `login` enters the transport: the world with `method`
set to `"post"` in the object at `data`. -/
def merged (data : Addr) (w : World) : World :=
  { w with heap := writeObj w.heap data (setProp (w.heap data) "method" (Value.str "post")) }

/-- A page with one object, at identity 0: a credentials mapping that already
has a `method` key. -/
def sampleWorld : World where
  heap := fun a =>
    if a = 0 then
      [("username", Value.str "ada"), ("method", Value.str "get"), ("password", Value.str "s3cret")]
    else []
  location := none
  fetches := []
  invocations := []

/-! ## Lemmas on objects and on the merge -/

theorem getProp_setProp_same (o : Obj) (k : String) (v : Value) :
    getProp (setProp o k v) k = some v := by
  induction o with
  | nil => simp [setProp, getProp]
  | cons p rest ih =>
    obtain ⟨k', v'⟩ := p
    by_cases h : k' = k
    · simp [setProp, getProp, h]
    · simp [setProp, getProp, h, ih]

theorem getProp_setProp_other (o : Obj) (k k' : String) (v : Value) (h : k' ≠ k) :
    getProp (setProp o k v) k' = getProp o k' := by
  induction o with
  | nil => simp [setProp, getProp, Ne.symm h]
  | cons p rest ih =>
    obtain ⟨k'', v''⟩ := p
    by_cases h1 : k'' = k
    · subst h1
      simp [setProp, getProp, Ne.symm h]
    · by_cases h2 : k'' = k'
      · subst h2
        simp [setProp, getProp, h1]
      · simp [setProp, getProp, h1, h2, ih]

theorem setProp_of_getProp (o : Obj) (k : String) (v : Value) (h : getProp o k = some v) :
    setProp o k v = o := by
  induction o with
  | nil => simp [getProp] at h
  | cons p rest ih =>
    obtain ⟨k', v'⟩ := p
    by_cases h1 : k' = k
    · simp [getProp, h1] at h
      simp [setProp, h1, h]
    · simp [getProp, h1] at h
      simp [setProp, h1, ih h]

theorem setProp_setProp (o : Obj) (k : String) (v : Value) :
    setProp (setProp o k v) k v = setProp o k v :=
  setProp_of_getProp _ k v (getProp_setProp_same o k v)

theorem extend_method (data : Addr) (h : Addr → Obj) :
    extend data [("method", Value.str "post")] h
      = (Value.obj data, writeObj h data (setProp (h data) "method" (Value.str "post"))) := by
  simp [extend, extendStep]

theorem login_eq (t : Transport) (data : Addr) (s e : Value) (w : World) :
    login t data s e w = t "api/login" (Value.obj data) s e (merged data w) := by
  simp [login, extend_method, merged]

theorem merged_heap (data : Addr) (w : World) :
    (merged data w).heap data = setProp (w.heap data) "method" (Value.str "post") := by
  simp [merged, writeObj]

theorem outcomeTransport_heap (o : Outcome) (p : String) (v s e : Value) (w : World) :
    (outcomeTransport o p v s e w).heap = w.heap := by
  cases o <;> rfl

theorem outcomeTransport_preservesObj (o : Outcome) (a : Addr) :
    PreservesObj (outcomeTransport o) a := by
  intro p v s e w
  rw [outcomeTransport_heap]

/-! ## The forwarding operations -/

/-- C1: for every transport, mapping `data` and pair of continuations, `login`
is one call of the transport with path `"api/login"`, the reference to `data`
itself and the two continuations it was given, entered in the state where the
object at `data` is the original with `method` set to `"post"` (every other
key as before, a prior `method` replaced); a recording transport sees exactly
that one call. -/
theorem login_calls_transport_once (t : Transport) (data : Addr) (onSuccess onError : Value)
    (w : World) :
    login t data onSuccess onError w
        = t "api/login" (Value.obj data) onSuccess onError (merged data w)
      ∧ (merged data w).heap data = setProp (w.heap data) "method" (Value.str "post")
      ∧ (∀ k, getProp ((merged data w).heap data) k
              = if k = "method" then some (Value.str "post") else getProp (w.heap data) k)
      ∧ (login recordingTransport data onSuccess onError w).fetches
          = w.fetches ++ [FetchCall.mk "api/login" (Value.obj data) onSuccess onError] := by
  refine ⟨login_eq t data onSuccess onError w, merged_heap data w, ?_, ?_⟩
  · intro k
    rw [merged_heap]
    by_cases hk : k = "method"
    · subst hk
      simp [getProp_setProp_same]
    · simp [hk, getProp_setProp_other _ _ _ _ hk]
  · rw [login_eq]
    rfl

/-- C2: for every transport, payload `data` and pair of continuations,
`findUsers` is one call of the transport with path `"api/users"`, `data` itself
and the two continuations it was given, entered in the unchanged state; a
recording transport sees exactly that one call and no object of the heap has
changed. -/
theorem findUsers_calls_transport_once (t : Transport) (data onSuccess onError : Value)
    (w : World) :
    findUsers t data onSuccess onError w = t "api/users" data onSuccess onError w
      ∧ (findUsers recordingTransport data onSuccess onError w).fetches
          = w.fetches ++ [FetchCall.mk "api/users" data onSuccess onError]
      ∧ (findUsers recordingTransport data onSuccess onError w).heap = w.heap := by
  exact ⟨rfl, rfl, rfl⟩

/-- C4: `login` merges before it enters the transport and hands it the
caller's own object: for every transport the call is the transport run on the
reference `data` in the state where that object maps `method` to `"post"`.
After `login` returns the object still maps `method` to `"post"`, whether the
transport invoked `onSuccess`, invoked `onError` or invoked neither, and for any
transport that leaves the object as it found it. -/
theorem login_mutates_caller_data (t : Transport) (data : Addr) (onSuccess onError : Value)
    (w : World) :
    login t data onSuccess onError w
        = t "api/login" (Value.obj data) onSuccess onError (merged data w)
      ∧ getProp ((merged data w).heap data) "method" = some (Value.str "post")
      ∧ (∀ o : Outcome,
          getProp ((login (outcomeTransport o) data onSuccess onError w).heap data) "method"
            = some (Value.str "post"))
      ∧ (PreservesObj t data →
          getProp ((login t data onSuccess onError w).heap data) "method"
            = some (Value.str "post")) := by
  have hm : getProp ((merged data w).heap data) "method" = some (Value.str "post") := by
    rw [merged_heap]
    exact getProp_setProp_same _ _ _
  refine ⟨login_eq t data onSuccess onError w, hm, ?_, ?_⟩
  · intro o
    rw [login_eq, outcomeTransport_heap]
    exact hm
  · intro ht
    rw [login_eq, ht]
    exact hm

theorem login_mutates_caller_data_witness :
    getProp (sampleWorld.heap 0) "method" = some (Value.str "get")
      ∧ PreservesObj recordingTransport 0
      ∧ getProp ((login recordingTransport 0 (Value.fn 1) (Value.fn 2) sampleWorld).heap 0)
          "method" = some (Value.str "post") :=
  ⟨by decide, fun _ _ _ _ _ => rfl,
    (login_mutates_caller_data recordingTransport 0 (Value.fn 1) (Value.fn 2) sampleWorld).2.2.2
      (fun _ _ _ _ _ => rfl)⟩

/-- C6: for every key `k` other than `method`, the object `login` forwards
holds at `k` exactly what the caller's object held before the call (the same
value, or absent as before), and so does the caller's object after the call,
whatever the outcome of the transport and for any transport that leaves the
object as it found it. -/
theorem login_preserves_other_keys (t : Transport) (data : Addr) (onSuccess onError : Value)
    (w : World) (k : String) (hk : k ≠ "method") :
    login t data onSuccess onError w
        = t "api/login" (Value.obj data) onSuccess onError (merged data w)
      ∧ getProp ((merged data w).heap data) k = getProp (w.heap data) k
      ∧ (∀ o : Outcome,
          getProp ((login (outcomeTransport o) data onSuccess onError w).heap data) k
            = getProp (w.heap data) k)
      ∧ (PreservesObj t data →
          getProp ((login t data onSuccess onError w).heap data) k = getProp (w.heap data) k) := by
  have hm : getProp ((merged data w).heap data) k = getProp (w.heap data) k := by
    rw [merged_heap]
    exact getProp_setProp_other _ _ _ _ hk
  refine ⟨login_eq t data onSuccess onError w, hm, ?_, ?_⟩
  · intro o
    rw [login_eq, outcomeTransport_heap]
    exact hm
  · intro ht
    rw [login_eq, ht]
    exact hm

theorem login_preserves_other_keys_witness :
    getProp (sampleWorld.heap 0) "password" = some (Value.str "s3cret")
      ∧ getProp ((merged 0 sampleWorld).heap 0) "password" = some (Value.str "s3cret")
      ∧ getProp ((merged 0 sampleWorld).heap 0) "token" = none
      ∧ getProp
          ((login (outcomeTransport (Outcome.failure Value.null)) 0 (Value.fn 1) (Value.fn 2)
            sampleWorld).heap 0) "password" = some (Value.str "s3cret")
      ∧ PreservesObj recordingTransport 0
      ∧ getProp ((login recordingTransport 0 (Value.fn 1) (Value.fn 2) sampleWorld).heap 0)
          "username" = some (Value.str "ada") :=
  ⟨by decide,
    (login_preserves_other_keys recordingTransport 0 (Value.fn 1) (Value.fn 2) sampleWorld
      "password" (by decide)).2.1.trans (by decide),
    (login_preserves_other_keys recordingTransport 0 (Value.fn 1) (Value.fn 2) sampleWorld
      "token" (by decide)).2.1.trans (by decide),
    ((login_preserves_other_keys recordingTransport 0 (Value.fn 1) (Value.fn 2) sampleWorld
      "password" (by decide)).2.2.1 (Outcome.failure Value.null)).trans (by decide),
    fun _ _ _ _ _ => rfl,
    ((login_preserves_other_keys recordingTransport 0 (Value.fn 1) (Value.fn 2) sampleWorld
      "username" (by decide)).2.2.2 (fun _ _ _ _ _ => rfl)).trans (by decide)⟩

/-- C7: with the stub transport that records its calls and never invokes a
continuation, after `findUsers` and after `login` the invocation log is what it
was: neither continuation has been invoked. For every transport the operation
is the transport call alone, and `login` enters it with the invocation log
untouched. -/
theorem operations_never_invoke (d : Value) (data : Addr) (onSuccess onError : Value)
    (w : World) :
    (findUsers recordingTransport d onSuccess onError w).invocations = w.invocations
      ∧ (login recordingTransport data onSuccess onError w).invocations = w.invocations
      ∧ (∀ t : Transport, findUsers t d onSuccess onError w = t "api/users" d onSuccess onError w)
      ∧ (∀ t : Transport, login t data onSuccess onError w
            = t "api/login" (Value.obj data) onSuccess onError (merged data w))
      ∧ (merged data w).invocations = w.invocations := by
  refine ⟨rfl, ?_, fun _ => rfl, fun t => login_eq t data onSuccess onError w, rfl⟩
  rw [login_eq]
  rfl

/-- C8: both operations hand the transport the caller's own continuations, for
every transport. So whenever the transport, on the call it receives, reports a
failure by invoking the error continuation it was given with `err`, the one new
entry of the invocation log after `findUsers` (after `login`) is the caller's
`onError` applied to `err` itself, and `onSuccess` has not been invoked;
likewise a result `r` delivered to the success continuation reaches the
caller's `onSuccess` as `r`. The error and the result may depend on the
request; the stubs with a fixed outcome are instances. -/
theorem outcome_passes_through (t : Transport) (d : Value) (data : Addr)
    (onSuccess onError : Value) (w : World) (err r : Value) :
    findUsers t d onSuccess onError w = t "api/users" d onSuccess onError w
      ∧ login t data onSuccess onError w
          = t "api/login" (Value.obj data) onSuccess onError (merged data w)
      ∧ (ReportsFailure t "api/users" d onSuccess onError w err →
          (findUsers t d onSuccess onError w).invocations = w.invocations ++ [(onError, err)])
      ∧ (ReportsFailure t "api/login" (Value.obj data) onSuccess onError (merged data w) err →
          (login t data onSuccess onError w).invocations = w.invocations ++ [(onError, err)])
      ∧ (DeliversResult t "api/users" d onSuccess onError w r →
          (findUsers t d onSuccess onError w).invocations = w.invocations ++ [(onSuccess, r)])
      ∧ (DeliversResult t "api/login" (Value.obj data) onSuccess onError (merged data w) r →
          (login t data onSuccess onError w).invocations = w.invocations ++ [(onSuccess, r)])
      ∧ (findUsers (outcomeTransport (Outcome.failure err)) d onSuccess onError w).invocations
          = w.invocations ++ [(onError, err)]
      ∧ (login (outcomeTransport (Outcome.failure err)) data onSuccess onError w).invocations
          = w.invocations ++ [(onError, err)]
      ∧ (findUsers (outcomeTransport (Outcome.success r)) d onSuccess onError w).invocations
          = w.invocations ++ [(onSuccess, r)]
      ∧ (login (outcomeTransport (Outcome.success r)) data onSuccess onError w).invocations
          = w.invocations ++ [(onSuccess, r)] := by
  refine ⟨rfl, login_eq t data onSuccess onError w, fun h => h, ?_, fun h => h, ?_, rfl, ?_,
    rfl, ?_⟩
  · intro h
    rw [login_eq, h]
    rfl
  · intro h
    rw [login_eq, h]
    rfl
  · rw [login_eq]
    rfl
  · rw [login_eq]
    rfl

theorem outcome_passes_through_witness :
    ReportsFailure routedTransport "api/login" (Value.obj 0) (Value.fn 1) (Value.fn 2)
        (merged 0 sampleWorld) (Value.str "401")
      ∧ (login routedTransport 0 (Value.fn 1) (Value.fn 2) sampleWorld).invocations
          = [(Value.fn 2, Value.str "401")]
      ∧ DeliversResult routedTransport "api/users" (Value.obj 0) (Value.fn 1) (Value.fn 2)
          sampleWorld (Value.obj 0)
      ∧ (findUsers routedTransport (Value.obj 0) (Value.fn 1) (Value.fn 2) sampleWorld).invocations
          = [(Value.fn 1, Value.obj 0)] :=
  ⟨by unfold ReportsFailure; decide,
    (outcome_passes_through routedTransport (Value.obj 0) 0 (Value.fn 1) (Value.fn 2) sampleWorld
      (Value.str "401") (Value.obj 0)).2.2.2.1 (by unfold ReportsFailure; decide),
    by unfold DeliversResult; decide,
    (outcome_passes_through routedTransport (Value.obj 0) 0 (Value.fn 1) (Value.fn 2) sampleWorld
      (Value.str "401") (Value.obj 0)).2.2.2.2.1 (by unfold DeliversResult; decide)⟩

/-- C10: the merge of `login` is idempotent. Merging `method: "post"` twice
into a heap is merging it once. After a first `login`, whatever the outcome of
the transport and for any transport that leaves the object at `data` as it
found it, a second `login` on the same object enters the transport with the
same reference and an object equal to the one the first call forwarded, and
leaves the object as it was after the first call. -/
theorem login_merge_idempotent (t : Transport) (data : Addr) (s1 e1 s2 e2 : Value) (w : World) :
    extend data [("method", Value.str "post")] (extend data [("method", Value.str "post")] w.heap).2
        = extend data [("method", Value.str "post")] w.heap
      ∧ login t data s1 e1 w = t "api/login" (Value.obj data) s1 e1 (merged data w)
      ∧ login t data s2 e2 (login t data s1 e1 w)
          = t "api/login" (Value.obj data) s2 e2 (merged data (login t data s1 e1 w))
      ∧ (∀ o : Outcome,
          (merged data (login (outcomeTransport o) data s1 e1 w)).heap data
              = (merged data w).heap data
            ∧ (login (outcomeTransport o) data s2 e2
                  (login (outcomeTransport o) data s1 e1 w)).heap data
              = (login (outcomeTransport o) data s1 e1 w).heap data)
      ∧ (PreservesObj t data →
          (merged data (login t data s1 e1 w)).heap data = (merged data w).heap data
            ∧ (login t data s2 e2 (login t data s1 e1 w)).heap data
              = (login t data s1 e1 w).heap data) := by
  have key : ∀ u : Transport, PreservesObj u data →
      (merged data (login u data s1 e1 w)).heap data = (merged data w).heap data
        ∧ (login u data s2 e2 (login u data s1 e1 w)).heap data
          = (login u data s1 e1 w).heap data := by
    intro u hu
    have h1 : (login u data s1 e1 w).heap data = (merged data w).heap data := by
      rw [login_eq, hu]
    have h2 : (merged data (login u data s1 e1 w)).heap data = (merged data w).heap data := by
      rw [merged_heap, h1, merged_heap, setProp_setProp]
    refine ⟨h2, ?_⟩
    rw [login_eq u data s2 e2, hu, h2, h1]
  refine ⟨?_, login_eq t data s1 e1 w, login_eq t data s2 e2 _,
    fun o => key _ (outcomeTransport_preservesObj o data), key t⟩
  rw [extend_method, extend_method]
  congr 1
  funext b
  by_cases hb : b = data
  · simp [writeObj, hb, setProp_setProp]
  · simp [writeObj, hb]

theorem login_merge_idempotent_witness :
    PreservesObj recordingTransport 0
      ∧ (login recordingTransport 0 (Value.fn 1) (Value.fn 2) sampleWorld).heap 0
        = [("username", Value.str "ada"), ("method", Value.str "post"),
            ("password", Value.str "s3cret")]
      ∧ (login recordingTransport 0 (Value.fn 3) (Value.fn 4)
          (login recordingTransport 0 (Value.fn 1) (Value.fn 2) sampleWorld)).heap 0
        = [("username", Value.str "ada"), ("method", Value.str "post"),
            ("password", Value.str "s3cret")] :=
  ⟨fun _ _ _ _ _ => rfl, by decide,
    ((login_merge_idempotent recordingTransport 0 (Value.fn 1) (Value.fn 2) (Value.fn 3)
      (Value.fn 4) sampleWorld).2.2.2.2 (fun _ _ _ _ _ => rfl)).2.trans (by decide)⟩

/-! ## The OAuth redirect -/

theorem oauthUrl_default : oauthUrl OAUTH_SERVER CLIENT_ID = "http://localhost:7777/oauth-server/oauth/authorize?response_type=token&client_id=tasks_app&redirect_uri=http://localhost:8888/tasks-service/dashboard/loginOAuth" := by
  decide

/-- C3: with the constants of the sources, `oauthLogin` sets the navigation
target to the literal URL of the spec, character for character. -/
theorem oauthLogin_default_target (w : World) :
    OAUTH_SERVER = "http://localhost:7777/oauth-server/"
      ∧ CLIENT_ID = "tasks_app"
      ∧ (oauthLogin w).location
          = some "http://localhost:7777/oauth-server/oauth/authorize?response_type=token&client_id=tasks_app&redirect_uri=http://localhost:8888/tasks-service/dashboard/loginOAuth" := by
  refine ⟨rfl, rfl, ?_⟩
  exact congrArg some oauthUrl_default

theorem oauthUrl_eq (server clientId : String) :
    oauthUrl server clientId
      = server ++ "oauth/authorize?response_type=token&client_id=" ++ clientId
          ++ "&redirect_uri=http://localhost:8888/tasks-service/dashboard/loginOAuth" := by
  have h : "oauth/authorize?response_type=token&client_id="
      = "oauth/authorize?" ++ "response_type=token" ++ "&client_id=" := by decide
  simp only [oauthUrl, h, String.append_assoc]

theorem oauthUrl_data (server clientId : String) :
    (oauthUrl server clientId).data
      = server.data ++ ("oauth/authorize?response_type=token&client_id=".data ++ (clientId.data
          ++ "&redirect_uri=http://localhost:8888/tasks-service/dashboard/loginOAuth".data)) := by
  rw [oauthUrl_eq]
  simp only [String.data_append, List.append_assoc]

/-- C5: the URL is the template with the two constants substituted, by plain
concatenation. Changing only the client id leaves the first
`server.length + 46` characters (up to and including `client_id=`) and the
characters after the client id (from `&redirect_uri=`) unchanged; changing only
the server leaves everything after the server prefix unchanged. -/
theorem oauthUrl_template (server clientId : String) :
    oauthUrl server clientId
        = server ++ "oauth/authorize?response_type=token&client_id=" ++ clientId
            ++ "&redirect_uri=http://localhost:8888/tasks-service/dashboard/loginOAuth"
      ∧ (∀ c : String,
          (oauthUrl server c).data.take (server.length + 46)
              = (server ++ "oauth/authorize?response_type=token&client_id=").data
            ∧ (oauthUrl server c).data.drop (server.length + 46 + c.length)
              = "&redirect_uri=http://localhost:8888/tasks-service/dashboard/loginOAuth".data)
      ∧ (∀ s : String,
          (oauthUrl s clientId).data.drop s.length
            = ("oauth/authorize?response_type=token&client_id=" ++ clientId
                ++ "&redirect_uri=http://localhost:8888/tasks-service/dashboard/loginOAuth").data) := by
  have h46 : "oauth/authorize?response_type=token&client_id=".data.length = 46 := by decide
  refine ⟨oauthUrl_eq server clientId, ?_, ?_⟩
  · intro c
    constructor
    · rw [oauthUrl_data, String.data_append, ← List.append_assoc]
      apply List.take_left'
      rw [List.length_append, h46]
      rfl
    · rw [oauthUrl_data, ← List.append_assoc, ← List.append_assoc]
      apply List.drop_left'
      rw [List.length_append, List.length_append, h46]
      rfl
  · intro s
    rw [oauthUrl_data, String.data_append, String.data_append]
    apply List.drop_left'
    rfl

/-- C9: after any two histories of `findUsers` and `login` calls, with any
payloads and continuations, run against any transports from any states,
`oauthLogin` sets the same navigation target: the URL built from the two
constants. -/
theorem oauthLogin_independent_of_history (t1 t2 : Transport) (h1 h2 : List ServiceCall)
    (w1 w2 : World) :
    (oauthLogin (runHistory t1 h1 w1)).location = (oauthLogin (runHistory t2 h2 w2)).location
      ∧ (oauthLogin (runHistory t1 h1 w1)).location = some (oauthUrl OAUTH_SERVER CLIENT_ID) :=
  ⟨rfl, rfl⟩

end UserService
